import Mathlib

/-!
Verification of the lm83.c driver (lm_sensors, Linux 2.4 era) against its
natural-language specification.

Shallow embedding: the driver's client state (`struct lm83_data`) becomes a
Lean structure; the i2c bus is a pure oracle (`Bus`) giving, per register, the
`int` result of `i2c_smbus_read_byte_data` (0..255 on success, a negative
errno on failure) and of `i2c_smbus_write_byte_data` (0 on success, negative
errno on failure); side effects (register reads/writes, lock down/up, i2c
attach/detach, proc-entry registration, kfree) are recorded in an event trace.
Machine integers are modelled as Nat/Int with explicit reductions:
`u8` assignment truncates mod 256, `unsigned long` subtraction wraps mod 2^32.
-/

/-- The LM83 register numbers, from the `#define LM83_REG_*` block. -/
def LM83_REG_R_MAN_ID : Nat := 0xFE
def LM83_REG_R_CONFIG : Nat := 0x03
def LM83_REG_W_CONFIG : Nat := 0x09
def LM83_REG_R_STATUS1 : Nat := 0x02
def LM83_REG_R_STATUS2 : Nat := 0x35
def LM83_REG_R_LOCAL_TEMP : Nat := 0x00
def LM83_REG_R_LOCAL_HIGH : Nat := 0x05
def LM83_REG_W_LOCAL_HIGH : Nat := 0x0B
def LM83_REG_R_REMOTE1_TEMP : Nat := 0x30
def LM83_REG_R_REMOTE1_HIGH : Nat := 0x38
def LM83_REG_W_REMOTE1_HIGH : Nat := 0x50
def LM83_REG_R_REMOTE2_TEMP : Nat := 0x01
def LM83_REG_R_REMOTE2_HIGH : Nat := 0x07
def LM83_REG_W_REMOTE2_HIGH : Nat := 0x0D
def LM83_REG_R_REMOTE3_TEMP : Nat := 0x31
def LM83_REG_R_REMOTE3_HIGH : Nat := 0x3A
def LM83_REG_W_REMOTE3_HIGH : Nat := 0x52

/-- `TEMP_FROM_REG(val)` = `(val > 127 ? val-256 : val)`, applied to a stored
`u8` register value. -/
def TEMP_FROM_REG (val : Nat) : Int := if val > 127 then (val : Int) - 256 else val

/-- `TEMP_TO_REG(val)` = `(val < 0 ? val+256 : val)` on the C `long`/`int`
argument; the subsequent store into a `u8` field truncates (see `toU8`). -/
def TEMP_TO_REG (val : Int) : Int := if val < 0 then val + 256 else val

/-- `LM83_INIT_HIGH` = 127. -/
def LM83_INIT_HIGH : Int := 127

/-- C conversion of an `int` value to `u8`: reduction mod 256. -/
def toU8 (x : Int) : Nat := (x % 256).toNat

/-- C conversion of an `int` value to its 32-bit unsigned bit pattern
(used where the driver applies bitwise masks to an `int` read result). -/
def toU32 (x : Int) : Nat := (x % 4294967296).toNat

/-- `HZ` for the target kernel (100 on the 2.4-era x86 default), so the
staleness bound `HZ + HZ/2` is exactly 1.5 seconds' worth of jiffies. -/
def HZ : Nat := 100

/-- The poll interval of the spec (one second of jiffies). -/
def POLL_INTERVAL : Nat := HZ

/-- Width of `unsigned long` (32-bit kernel), for jiffies wraparound. -/
def ULONG_MOD : Nat := 4294967296

/-- Wraparound subtraction `a - b` on `unsigned long`, for `a b < ULONG_MOD`. -/
def usub (a b : Nat) : Nat := (a + ULONG_MOD - b) % ULONG_MOD

/-- The i2c bus oracle: per register, the `int` result of
`i2c_smbus_read_byte_data` (0..255 success, negative errno failure); per
(register, value) pair, the `int` result of `i2c_smbus_write_byte_data`
(0 success, negative errno failure). The driver runs against an arbitrary bus. -/
structure Bus where
  readReg : Nat → Int
  writeReg : Nat → Nat → Int

/-- `lm83_read_value`: plain delegation to `i2c_smbus_read_byte_data`. -/
def lm83_read_value (bus : Bus) (reg : Nat) : Int := bus.readReg reg

/-- `lm83_write_value`: plain delegation to `i2c_smbus_write_byte_data`. -/
def lm83_write_value (bus : Bus) (reg : Nat) (value : Nat) : Int :=
  bus.writeReg reg value

/-- `struct lm83_data` (minus the semaphore, modelled via trace events, and
`sysctl_id`, carried by the detect result): validity flag, last-update
jiffies stamp, and the eight cached `u8` register values. -/
structure lm83_data where
  valid : Bool
  last_updated : Nat
  local_temp : Nat
  local_high : Nat
  remote1_temp : Nat
  remote1_high : Nat
  remote2_temp : Nat
  remote2_high : Nat
  remote3_temp : Nat
  remote3_high : Nat
deriving DecidableEq, Repr

/-- Observable side effects of the driver, in program order. -/
inductive Ev where
  | down
  | up
  | readReg (reg : Nat)
  | writeReg (reg : Nat) (val : Nat)
  | attachClient
  | detachClient
  | registerEntry
  | deregisterEntry
  | kfree
deriving DecidableEq, Repr

/-- The bus-read events of a trace (ignoring lock and lifecycle events). -/
def busReads (tr : List Ev) : List Ev :=
  tr.filter (fun e => match e with | Ev.readReg _ => true | _ => false)

/-- The refresh condition of `lm83_update_client`, in source order:
`(jiffies - data->last_updated > HZ + HZ / 2) || (jiffies < data->last_updated)
 || !data->valid`, with `unsigned long` wraparound subtraction. -/
def lm83_update_needed (now : Nat) (d : lm83_data) : Bool :=
  decide (usub now d.last_updated > HZ + HZ / 2) ||
  decide (now < d.last_updated) || !d.valid

/-- `lm83_update_client`: take the lock, re-test staleness, and when stale read
the four temperature registers (each `int` result stored into a `u8` field,
hence truncated mod 256 — the source performs no error check on the reads),
stamp `last_updated = jiffies`, set `valid = 1`; release the lock.
Result: the new client data and the event trace. -/
def lm83_update_client (bus : Bus) (now : Nat) (d : lm83_data) :
    lm83_data × List Ev :=
  if lm83_update_needed now d then
    ({ d with
        local_temp := toU8 (lm83_read_value bus LM83_REG_R_LOCAL_TEMP),
        remote1_temp := toU8 (lm83_read_value bus LM83_REG_R_REMOTE1_TEMP),
        remote2_temp := toU8 (lm83_read_value bus LM83_REG_R_REMOTE2_TEMP),
        remote3_temp := toU8 (lm83_read_value bus LM83_REG_R_REMOTE3_TEMP),
        last_updated := now,
        valid := true },
     [Ev.down, Ev.readReg LM83_REG_R_LOCAL_TEMP,
      Ev.readReg LM83_REG_R_REMOTE1_TEMP,
      Ev.readReg LM83_REG_R_REMOTE2_TEMP,
      Ev.readReg LM83_REG_R_REMOTE3_TEMP, Ev.up])
  else (d, [Ev.down, Ev.up])

/-- The staleness predicate as the spec words it: refresh is required iff
`!cache.valid`, or `now - cache.last_updated > 1.5 * POLL_INTERVAL`
(mathematical subtraction), or `now < cache.last_updated`. -/
def lm83_stale_spec (now : Nat) (d : lm83_data) : Prop :=
  d.valid = false ∨
  (now : Int) - (d.last_updated : Int) > 3 * (POLL_INTERVAL : Int) / 2 ∨
  now < d.last_updated

instance (now : Nat) (d : lm83_data) : Decidable (lm83_stale_spec now d) := by
  unfold lm83_stale_spec; infer_instance

/-- The code's refresh condition agrees with the spec's staleness predicate on
the `unsigned long` domain. -/
theorem lm83_update_needed_iff (now : Nat) (d : lm83_data)
    (hn : now < ULONG_MOD) (hl : d.last_updated < ULONG_MOD) :
    lm83_update_needed now d = true ↔ lm83_stale_spec now d := by
  unfold lm83_update_needed lm83_stale_spec usub POLL_INTERVAL ULONG_MOD HZ at *
  simp only [Bool.or_eq_true, decide_eq_true_eq, Bool.not_eq_true']
  cases hv : d.valid <;> simp [hv] <;> omega

/-- The `operation` argument of the proc handlers: `SENSORS_PROC_REAL_INFO`,
`SENSORS_PROC_REAL_READ`, and `SENSORS_PROC_REAL_WRITE` with the supplied
`results` array (its in-length given by `*nrels_mag`). -/
inductive ProcOp where
  | info
  | read
  | write (results : List Int)
deriving Repr

/-- Result of one proc-handler call: final client data, the `results` values
the handler wrote out, and the event trace. -/
structure ProcResult where
  data : lm83_data
  results : List Int
  trace : List Ev
deriving Repr

/-- `lm83_local_temp`: on READ, update the client then report
`TEMP_FROM_REG` of the cached temperature and high threshold; on WRITE with
`*nrels_mag >= 1`, store `TEMP_TO_REG(results[0])` into the cached threshold
and then write that byte to the register (the write result is discarded). -/
def lm83_local_temp (bus : Bus) (now : Nat) (op : ProcOp) (d : lm83_data) :
    ProcResult :=
  match op with
  | ProcOp.info => ⟨d, [], []⟩
  | ProcOp.read =>
      let r := lm83_update_client bus now d
      ⟨r.1, [TEMP_FROM_REG r.1.local_temp, TEMP_FROM_REG r.1.local_high], r.2⟩
  | ProcOp.write vals =>
      match vals with
      | [] => ⟨d, [], []⟩
      | v :: _ =>
          let hi := toU8 (TEMP_TO_REG v)
          ⟨{ d with local_high := hi }, [],
           [Ev.writeReg LM83_REG_W_LOCAL_HIGH hi]⟩

/-- `lm83_remote1_temp`: as `lm83_local_temp` for the remote1 channel. -/
def lm83_remote1_temp (bus : Bus) (now : Nat) (op : ProcOp) (d : lm83_data) :
    ProcResult :=
  match op with
  | ProcOp.info => ⟨d, [], []⟩
  | ProcOp.read =>
      let r := lm83_update_client bus now d
      ⟨r.1, [TEMP_FROM_REG r.1.remote1_temp, TEMP_FROM_REG r.1.remote1_high], r.2⟩
  | ProcOp.write vals =>
      match vals with
      | [] => ⟨d, [], []⟩
      | v :: _ =>
          let hi := toU8 (TEMP_TO_REG v)
          ⟨{ d with remote1_high := hi }, [],
           [Ev.writeReg LM83_REG_W_REMOTE1_HIGH hi]⟩

/-- `lm83_remote2_temp`: as `lm83_local_temp` for the remote2 channel. -/
def lm83_remote2_temp (bus : Bus) (now : Nat) (op : ProcOp) (d : lm83_data) :
    ProcResult :=
  match op with
  | ProcOp.info => ⟨d, [], []⟩
  | ProcOp.read =>
      let r := lm83_update_client bus now d
      ⟨r.1, [TEMP_FROM_REG r.1.remote2_temp, TEMP_FROM_REG r.1.remote2_high], r.2⟩
  | ProcOp.write vals =>
      match vals with
      | [] => ⟨d, [], []⟩
      | v :: _ =>
          let hi := toU8 (TEMP_TO_REG v)
          ⟨{ d with remote2_high := hi }, [],
           [Ev.writeReg LM83_REG_W_REMOTE2_HIGH hi]⟩

/-- `lm83_remote3_temp`: as `lm83_local_temp` for the remote3 channel. -/
def lm83_remote3_temp (bus : Bus) (now : Nat) (op : ProcOp) (d : lm83_data) :
    ProcResult :=
  match op with
  | ProcOp.info => ⟨d, [], []⟩
  | ProcOp.read =>
      let r := lm83_update_client bus now d
      ⟨r.1, [TEMP_FROM_REG r.1.remote3_temp, TEMP_FROM_REG r.1.remote3_high], r.2⟩
  | ProcOp.write vals =>
      match vals with
      | [] => ⟨d, [], []⟩
      | v :: _ =>
          let hi := toU8 (TEMP_TO_REG v)
          ⟨{ d with remote3_high := hi }, [],
           [Ev.writeReg LM83_REG_W_REMOTE3_HIGH hi]⟩

/-- The four channels, named as in `lm83_dir_table_template`
("temp1".."temp4" for local, remote1, remote2, remote3). -/
inductive Channel where
  | temp1
  | temp2
  | temp3
  | temp4
deriving DecidableEq, Repr

/-- Dispatch of `lm83_dir_table_template`: each channel's proc handler. -/
def lm83_channel_fn (c : Channel) : Bus → Nat → ProcOp → lm83_data → ProcResult :=
  match c with
  | Channel.temp1 => lm83_local_temp
  | Channel.temp2 => lm83_remote1_temp
  | Channel.temp3 => lm83_remote2_temp
  | Channel.temp4 => lm83_remote3_temp

/-- The cached high-threshold field of a channel. -/
def threshold_field (c : Channel) (d : lm83_data) : Nat :=
  match c with
  | Channel.temp1 => d.local_high
  | Channel.temp2 => d.remote1_high
  | Channel.temp3 => d.remote2_high
  | Channel.temp4 => d.remote3_high

/-- The write register of a channel's high threshold. -/
def threshold_wreg (c : Channel) : Nat :=
  match c with
  | Channel.temp1 => LM83_REG_W_LOCAL_HIGH
  | Channel.temp2 => LM83_REG_W_REMOTE1_HIGH
  | Channel.temp3 => LM83_REG_W_REMOTE2_HIGH
  | Channel.temp4 => LM83_REG_W_REMOTE3_HIGH

/- Codec facts shared by several claim proofs. -/

theorem temp_roundtrip (x : Int) (h1 : -128 ≤ x) (h2 : x ≤ 127) :
    TEMP_FROM_REG (toU8 (TEMP_TO_REG x)) = x := by
  unfold TEMP_FROM_REG toU8 TEMP_TO_REG
  split <;> split <;> omega

theorem temp_decode_bounds (b : Nat) (hb : b < 256) :
    -128 ≤ TEMP_FROM_REG b ∧ TEMP_FROM_REG b ≤ 127 := by
  unfold TEMP_FROM_REG
  split <;> omega

theorem temp_encode_decode (b : Nat) (hb : b < 256) :
    toU8 (TEMP_TO_REG (TEMP_FROM_REG b)) = b := by
  unfold TEMP_FROM_REG toU8 TEMP_TO_REG
  split <;> split <;> omega

/-- The C test `(x & mask) != 0` on an `int` read result: taken on the 32-bit
two's-complement bit pattern of x (a negative errno participates with its
bit pattern — the source performs no error check before masking). -/
def maskTest (x : Int) (mask : Nat) : Bool := (toU32 x &&& mask) ≠ 0

/-- `SENSORS_INSMOD_1(lm83)` enumerates `any_chip = 0, lm83 = 1`. -/
def lm83 : Int := 1

/-- The reads of the autodetection branch, reflecting the short-circuit
evaluation of the `||` chain in the source. -/
def lm83_detection_reads (bus : Bus) : List Ev :=
  Ev.readReg LM83_REG_R_STATUS1 ::
  if maskTest (lm83_read_value bus LM83_REG_R_STATUS1) 0xA8 then []
  else
    Ev.readReg LM83_REG_R_STATUS2 ::
    if maskTest (lm83_read_value bus LM83_REG_R_STATUS2) 0x48 then []
    else [Ev.readReg LM83_REG_R_CONFIG]

/-- The detection condition of `lm83_detect`: any of the three fixed masks
applied to the three status/configuration registers is non-zero. -/
def lm83_detection_failed (bus : Bus) : Bool :=
  maskTest (lm83_read_value bus LM83_REG_R_STATUS1) 0xA8 ||
  maskTest (lm83_read_value bus LM83_REG_R_STATUS2) 0x48 ||
  maskTest (lm83_read_value bus LM83_REG_R_CONFIG) 0x41

/-- `lm83_init_client`: write `TEMP_TO_REG(LM83_INIT_HIGH)` (= 127) to the
four high-threshold registers. The `lm83_write_value` results are discarded
and no cached field is touched; only the write events remain. -/
def lm83_init_client : List Ev :=
  [Ev.writeReg LM83_REG_W_LOCAL_HIGH (toU8 (TEMP_TO_REG LM83_INIT_HIGH)),
   Ev.writeReg LM83_REG_W_REMOTE1_HIGH (toU8 (TEMP_TO_REG LM83_INIT_HIGH)),
   Ev.writeReg LM83_REG_W_REMOTE2_HIGH (toU8 (TEMP_TO_REG LM83_INIT_HIGH)),
   Ev.writeReg LM83_REG_W_REMOTE3_HIGH (toU8 (TEMP_TO_REG LM83_INIT_HIGH))]

/-- Outcome of `lm83_detect`, one constructor per distinct exit path of the
source (the `goto ERROR1` exits with `err == 0` are told apart by the branch
that took them, as the source's debug/printk messages do). -/
inductive DetectResult where
  | notPresent
  | unsupported
  | unknownKind
  | attachFailed (err : Int)
  | registerFailed (err : Int)
  | attached (d : lm83_data) (sysctl_id : Int)
deriving DecidableEq, Repr

/-- The C return value of each exit path: `err` (0 for the detection and
identification failures, which leave `err` at its initial 0). -/
def DetectResult.ret : DetectResult → Int
  | DetectResult.notPresent => 0
  | DetectResult.unsupported => 0
  | DetectResult.unknownKind => 0
  | DetectResult.attachFailed err => err
  | DetectResult.registerFailed err => err
  | DetectResult.attached _ _ => 0

/-- A `lm83_detect` run: its outcome and event trace. -/
structure DetectRun where
  result : DetectResult
  trace : List Ev
deriving DecidableEq, Repr

/- `lm83_detect` (the functionality check and the kmalloc are assumed to
succeed; the freshly allocated client data has indeterminate contents `init`).
Inputs beyond the bus: the `kind` argument (negative: autodetect; 0: skip
detection; positive: forced kind), and the results of the two external
registration calls, `attachRes` for `i2c_attach_client` (0 on success) and
`registerRes` for `i2c_register_entry` (the sysctl id if non-negative, an
error if negative). Steps, as in the source: autodetect masks when
`kind < 0`; manufacturer-ID identification when `kind <= 0` (the `int` read
result is truncated into the `unsigned char man_id`, unchecked); `data->valid
= 0`; `i2c_attach_client`; `i2c_register_entry` with rollback
(`i2c_detach_client` then `kfree`) on failure; `lm83_init_client`.
The two helper defs below name the probe reads and the post-identification
kind. -/

/-- The reads `lm83_detect` has performed by the time the detection and
identification steps are past: the autodetection reads when `kind < 0`, the
manufacturer-ID read when `kind <= 0`. -/
def lm83_detect_probe (bus : Bus) (kind : Int) : List Ev :=
  (if kind < 0 then lm83_detection_reads bus else []) ++
  (if kind ≤ 0 then [Ev.readReg LM83_REG_R_MAN_ID] else [])

/-- The value of `kind` after the identification step: when `kind <= 0` the
manufacturer-ID register is read and its `unsigned char` truncation compared
with 0x01 (National Semiconductor), setting `kind = lm83` on match. -/
def lm83_detect_kind1 (bus : Bus) (kind : Int) : Int :=
  if kind ≤ 0 then
    if toU8 (lm83_read_value bus LM83_REG_R_MAN_ID) = 1 then lm83 else kind
  else kind

def lm83_detect (bus : Bus) (kind : Int) (init : lm83_data)
    (attachRes registerRes : Int) : DetectRun :=
  if kind < 0 ∧ lm83_detection_failed bus then
    ⟨DetectResult.notPresent, lm83_detection_reads bus ++ [Ev.kfree]⟩
  else if lm83_detect_kind1 bus kind ≤ 0 then
    ⟨DetectResult.unsupported, lm83_detect_probe bus kind ++ [Ev.kfree]⟩
  else if lm83_detect_kind1 bus kind ≠ lm83 then
    ⟨DetectResult.unknownKind, lm83_detect_probe bus kind ++ [Ev.kfree]⟩
  else if attachRes ≠ 0 then
    ⟨DetectResult.attachFailed attachRes,
     lm83_detect_probe bus kind ++ [Ev.attachClient, Ev.kfree]⟩
  else if registerRes < 0 then
    ⟨DetectResult.registerFailed registerRes,
     lm83_detect_probe bus kind ++
       [Ev.attachClient, Ev.registerEntry, Ev.detachClient, Ev.kfree]⟩
  else
    ⟨DetectResult.attached { init with valid := false } registerRes,
     lm83_detect_probe bus kind ++ [Ev.attachClient, Ev.registerEntry] ++
       lm83_init_client⟩

/-- `lm83_detach_client`, driven by the result `detachRes` of the external
`i2c_detach_client` call: deregister the proc entry, then detach from the i2c
layer; on failure return that error without freeing, else kfree and return 0.
Result: (return value, whether the client state was freed, trace). -/
def lm83_detach_client (detachRes : Int) : Int × Bool × List Ev :=
  if detachRes ≠ 0 then
    (detachRes, false, [Ev.deregisterEntry, Ev.detachClient])
  else
    (0, true, [Ev.deregisterEntry, Ev.detachClient, Ev.kfree])

/- Concrete inputs used by counterexamples and witnesses. -/

/-- A bus on which every transaction fails with errno -5 (-EIO). -/
def busErr5 : Bus := ⟨fun _ => -5, fun _ _ => -5⟩

/-- A fresh, never-updated client state with all cached bytes zero. -/
def d0 : lm83_data := ⟨false, 0, 0, 0, 0, 0, 0, 0, 0, 0⟩

/-- The update refresh never touches the four cached threshold fields. -/
theorem lm83_update_client_highs (bus : Bus) (now : Nat) (d : lm83_data) :
    (lm83_update_client bus now d).1.local_high = d.local_high ∧
    (lm83_update_client bus now d).1.remote1_high = d.remote1_high ∧
    (lm83_update_client bus now d).1.remote2_high = d.remote2_high ∧
    (lm83_update_client bus now d).1.remote3_high = d.remote3_high := by
  unfold lm83_update_client
  split <;> simp

/-- When the refresh condition is false, the update is the identity on the
cache and performs only the lock round trip. -/
theorem lm83_update_client_fresh (bus : Bus) (now : Nat) (d : lm83_data)
    (h : lm83_update_needed now d = false) :
    lm83_update_client bus now d = (d, [Ev.down, Ev.up]) := by
  unfold lm83_update_client
  simp [h]

/-- Reading a channel whose cache is fresh returns the cached values and
performs no bus read. -/
theorem lm83_local_temp_read_fresh (bus : Bus) (now : Nat) (d : lm83_data)
    (h : lm83_update_needed now d = false) :
    lm83_local_temp bus now ProcOp.read d =
      ⟨d, [TEMP_FROM_REG d.local_temp, TEMP_FROM_REG d.local_high],
       [Ev.down, Ev.up]⟩ := by
  unfold lm83_local_temp
  rw [lm83_update_client_fresh bus now d h]

/-- C1: `lm83_update_client` performs the four temperature-register bus reads
iff the staleness predicate holds (cache invalid, or more than 1.5 poll
intervals elapsed, or the clock moved backward); when the predicate is false
it issues zero bus reads and returns the cache unchanged, so a second read
within the staleness window returns values identical to the first and issues
no bus reads. -/
theorem lm83_c1_staleness (bus : Bus) (now : Nat) (d : lm83_data)
    (hn : now < ULONG_MOD) (hl : d.last_updated < ULONG_MOD) :
    (busReads (lm83_update_client bus now d).2 =
       [Ev.readReg LM83_REG_R_LOCAL_TEMP, Ev.readReg LM83_REG_R_REMOTE1_TEMP,
        Ev.readReg LM83_REG_R_REMOTE2_TEMP, Ev.readReg LM83_REG_R_REMOTE3_TEMP]
       ↔ lm83_stale_spec now d) ∧
    (¬ lm83_stale_spec now d →
       lm83_update_client bus now d = (d, [Ev.down, Ev.up])) ∧
    (∀ (bus2 : Bus) (now2 : Nat), now2 < ULONG_MOD →
       ¬ lm83_stale_spec now2 (lm83_local_temp bus now ProcOp.read d).data →
       (lm83_local_temp bus2 now2 ProcOp.read
           ((lm83_local_temp bus now ProcOp.read d).data)).results =
         (lm83_local_temp bus now ProcOp.read d).results ∧
       busReads (lm83_local_temp bus2 now2 ProcOp.read
           ((lm83_local_temp bus now ProcOp.read d).data)).trace = []) := by
  have hiff := lm83_update_needed_iff now d hn hl
  refine ⟨?_, ?_, ?_⟩
  · by_cases h : lm83_stale_spec now d
    · have hb : lm83_update_needed now d = true := hiff.mpr h
      unfold lm83_update_client
      simp [hb, busReads, h]
    · have hb : lm83_update_needed now d = false := by
        cases hbool : lm83_update_needed now d with
        | false => rfl
        | true => exact absurd (hiff.mp hbool) h
      unfold lm83_update_client
      simp [hb, busReads, h]
  · intro h
    have hb : lm83_update_needed now d = false := by
      cases hbool : lm83_update_needed now d with
      | false => rfl
      | true => exact absurd (hiff.mp hbool) h
    exact lm83_update_client_fresh bus now d hb
  · intro bus2 now2 hn2 h2
    have hlu : (lm83_local_temp bus now ProcOp.read d).data.last_updated
        < ULONG_MOD := by
      show (lm83_update_client bus now d).1.last_updated < ULONG_MOD
      unfold lm83_update_client
      split <;> simpa
    have hb2 : lm83_update_needed now2
        ((lm83_local_temp bus now ProcOp.read d).data) = false := by
      cases hbool : lm83_update_needed now2
          ((lm83_local_temp bus now ProcOp.read d).data) with
      | false => rfl
      | true => exact absurd ((lm83_update_needed_iff now2 _ hn2 hlu).mp hbool) h2
    rw [lm83_local_temp_read_fresh bus2 now2 _ hb2]
    exact ⟨rfl, rfl⟩

/-- Witness for C1 at a concrete stale state: the never-valid fresh client
triggers the four reads. -/
theorem lm83_c1_staleness_witness :
    (0 : Nat) < ULONG_MOD ∧ d0.last_updated < ULONG_MOD ∧
    (busReads (lm83_update_client busErr5 0 d0).2 =
       [Ev.readReg LM83_REG_R_LOCAL_TEMP, Ev.readReg LM83_REG_R_REMOTE1_TEMP,
        Ev.readReg LM83_REG_R_REMOTE2_TEMP, Ev.readReg LM83_REG_R_REMOTE3_TEMP]
       ↔ lm83_stale_spec 0 d0) :=
  ⟨by decide, by decide, (lm83_c1_staleness busErr5 0 d0 (by decide) (by decide)).1⟩

/-- Counterexample for C2: on a bus where every read fails with -EIO (-5),
a refresh of the fresh client still commits: `valid` flips to true (it was
false) and the cached local temperature becomes 251, the truncation of the
errno -5, not its previous value 0 — so a failing read does not leave the
cache untouched and no error is surfaced (`lm83_update_client` returns none). -/
theorem lm83_c2_cex :
    busErr5.readReg LM83_REG_R_LOCAL_TEMP < 0 ∧
    d0.valid = false ∧ d0.local_temp = 0 ∧
    (lm83_update_client busErr5 0 d0).1.valid = true ∧
    (lm83_update_client busErr5 0 d0).1.local_temp = 251 := by decide

/-- C2 (amended): when a refresh runs and any of the four temperature reads
fails, the update is committed anyway — each read's `int` result (the negative
errno on failure) is truncated to a byte and stored, `valid` is set and
`last_updated` is set to now; no error is surfaced to the caller (the source
function returns void and checks nothing); the lock is released on this exit
path as on every other (the trace is down, the four reads, up). -/
theorem lm83_c2_commit_on_failure (bus : Bus) (now : Nat) (d : lm83_data)
    (hstale : lm83_update_needed now d = true)
    (_hfail : ∃ r ∈ [LM83_REG_R_LOCAL_TEMP, LM83_REG_R_REMOTE1_TEMP,
                    LM83_REG_R_REMOTE2_TEMP, LM83_REG_R_REMOTE3_TEMP],
               lm83_read_value bus r < 0) :
    (lm83_update_client bus now d).1.valid = true ∧
    (lm83_update_client bus now d).1.last_updated = now ∧
    (lm83_update_client bus now d).1.local_temp =
      toU8 (lm83_read_value bus LM83_REG_R_LOCAL_TEMP) ∧
    (lm83_update_client bus now d).1.remote1_temp =
      toU8 (lm83_read_value bus LM83_REG_R_REMOTE1_TEMP) ∧
    (lm83_update_client bus now d).1.remote2_temp =
      toU8 (lm83_read_value bus LM83_REG_R_REMOTE2_TEMP) ∧
    (lm83_update_client bus now d).1.remote3_temp =
      toU8 (lm83_read_value bus LM83_REG_R_REMOTE3_TEMP) ∧
    (lm83_update_client bus now d).2 =
      [Ev.down, Ev.readReg LM83_REG_R_LOCAL_TEMP,
       Ev.readReg LM83_REG_R_REMOTE1_TEMP, Ev.readReg LM83_REG_R_REMOTE2_TEMP,
       Ev.readReg LM83_REG_R_REMOTE3_TEMP, Ev.up] := by
  unfold lm83_update_client
  simp [hstale]

/-- Witness for C2 (amended) at the failing bus and fresh client. -/
theorem lm83_c2_commit_on_failure_witness :
    lm83_update_needed 0 d0 = true ∧
    (lm83_update_client busErr5 0 d0).1.valid = true ∧
    (lm83_update_client busErr5 0 d0).1.local_temp =
      toU8 (lm83_read_value busErr5 LM83_REG_R_LOCAL_TEMP) := by
  have h := lm83_c2_commit_on_failure busErr5 0 d0 (by decide)
    ⟨LM83_REG_R_LOCAL_TEMP, by decide⟩
  exact ⟨by decide, h.1, h.2.2.1⟩

/-- C10: a refresh never modifies the four cached threshold fields, and its
bus reads are exactly the four temperature registers (or none at all when the
cache is fresh) — cached thresholds change only through the write handlers. -/
theorem lm83_c10_update_frame (bus : Bus) (now : Nat) (d : lm83_data) :
    ((lm83_update_client bus now d).1.local_high = d.local_high ∧
     (lm83_update_client bus now d).1.remote1_high = d.remote1_high ∧
     (lm83_update_client bus now d).1.remote2_high = d.remote2_high ∧
     (lm83_update_client bus now d).1.remote3_high = d.remote3_high) ∧
    (busReads (lm83_update_client bus now d).2 = [] ∨
     busReads (lm83_update_client bus now d).2 =
       [Ev.readReg LM83_REG_R_LOCAL_TEMP, Ev.readReg LM83_REG_R_REMOTE1_TEMP,
        Ev.readReg LM83_REG_R_REMOTE2_TEMP, Ev.readReg LM83_REG_R_REMOTE3_TEMP]) := by
  refine ⟨lm83_update_client_highs bus now d, ?_⟩
  unfold lm83_update_client
  split
  · right; rfl
  · left; rfl

/-- A bus whose reads all succeed with 0 and whose writes all fail (-5). -/
def busWFail : Bus := ⟨fun _ => 0, fun _ _ => -5⟩

/-- A client state standing for the indeterminate contents of the freshly
kmalloc'd `lm83_data` block (nothing but `valid` is set by the source before
the attach completes). -/
def d0g : lm83_data := ⟨true, 3, 1, 7, 2, 9, 4, 11, 6, 13⟩

/-- The autodetection reads are register reads only. -/
theorem lm83_detection_reads_only (bus : Bus) :
    Ev.attachClient ∉ lm83_detection_reads bus := by
  unfold lm83_detection_reads
  split
  · simp
  · split <;> simp

/-- C3: on the autodetect path (kind < 0), detect returns NotPresent iff one
of the three fixed masks applied to the status/config registers read is
non-zero (status1 & 0xA8, status2 & 0x48, config & 0x41); in that case no
client is attached and the allocated state is freed. -/
theorem lm83_c3_detect_not_present (bus : Bus) (kind : Int) (init : lm83_data)
    (attachRes registerRes : Int) (hk : kind < 0) :
    ((lm83_detect bus kind init attachRes registerRes).result =
        DetectResult.notPresent ↔
      (maskTest (bus.readReg LM83_REG_R_STATUS1) 0xA8 = true ∨
       maskTest (bus.readReg LM83_REG_R_STATUS2) 0x48 = true ∨
       maskTest (bus.readReg LM83_REG_R_CONFIG) 0x41 = true)) ∧
    ((lm83_detect bus kind init attachRes registerRes).result =
        DetectResult.notPresent →
      Ev.attachClient ∉ (lm83_detect bus kind init attachRes registerRes).trace ∧
      Ev.kfree ∈ (lm83_detect bus kind init attachRes registerRes).trace) := by
  have hmask : lm83_detection_failed bus = true ↔
      (maskTest (bus.readReg LM83_REG_R_STATUS1) 0xA8 = true ∨
       maskTest (bus.readReg LM83_REG_R_STATUS2) 0x48 = true ∨
       maskTest (bus.readReg LM83_REG_R_CONFIG) 0x41 = true) := by
    unfold lm83_detection_failed lm83_read_value
    simp [Bool.or_eq_true, or_assoc]
  by_cases hf : lm83_detection_failed bus = true
  · have hrun : lm83_detect bus kind init attachRes registerRes =
        ⟨DetectResult.notPresent, lm83_detection_reads bus ++ [Ev.kfree]⟩ := by
      unfold lm83_detect
      rw [if_pos ⟨hk, hf⟩]
    rw [hrun]
    refine ⟨by simpa using hmask.mp hf, fun _ => ⟨?_, by simp⟩⟩
    simp only [List.mem_append, List.mem_singleton]
    rintro (h | h)
    · exact lm83_detection_reads_only bus h
    · exact absurd h (by simp)
  · have hne : (lm83_detect bus kind init attachRes registerRes).result ≠
        DetectResult.notPresent := by
      unfold lm83_detect
      rw [if_neg (by simp [hf])]
      split_ifs <;> simp
    refine ⟨?_, fun h => absurd h hne⟩
    rw [iff_iff_implies_and_implies]
    refine ⟨fun h => absurd h hne, fun h => absurd (hmask.mpr h) hf⟩

/-- Witness for C3: the NotPresent iff at the all-failing bus (errno -5 reads
make the first mask test non-zero). -/
theorem lm83_c3_detect_not_present_witness :
    (lm83_detect busErr5 (-1) d0 0 0).result = DetectResult.notPresent ↔
      (maskTest (busErr5.readReg LM83_REG_R_STATUS1) 0xA8 = true ∨
       maskTest (busErr5.readReg LM83_REG_R_STATUS2) 0x48 = true ∨
       maskTest (busErr5.readReg LM83_REG_R_CONFIG) 0x41 = true) :=
  (lm83_c3_detect_not_present busErr5 (-1) d0 0 0 (by decide)).1

/-- Counterexample for C4: on a bus where every read fails with errno -5, the
status-1 read fails with a negative result, yet detect reports NotPresent —
the bus failure is masked into NotPresent, not propagated as a distinct bus
error (the source checks no read for errors). -/
theorem lm83_c4_cex :
    busErr5.readReg LM83_REG_R_STATUS1 < 0 ∧
    (lm83_detect busErr5 (-1) d0 0 0).result = DetectResult.notPresent := by
  decide

/-- C4 (amended): a bus transaction failure during the detection reads is not
detected: the negative errno participates in the mask tests with its 32-bit
two's-complement bit pattern, so whenever that pattern meets a detection mask
(as errno -5 does on status-1's mask 0xA8) the failure is reported as
NotPresent; no distinct bus-failure outcome exists. -/
theorem lm83_c4_bus_failure_masked (bus : Bus) (kind : Int) (init : lm83_data)
    (attachRes registerRes : Int) (hk : kind < 0)
    (_hfail : bus.readReg LM83_REG_R_STATUS1 < 0)
    (hmask : maskTest (bus.readReg LM83_REG_R_STATUS1) 0xA8 = true) :
    (lm83_detect bus kind init attachRes registerRes).result =
      DetectResult.notPresent := by
  have hf : lm83_detection_failed bus = true := by
    unfold lm83_detection_failed lm83_read_value
    simp [hmask]
  unfold lm83_detect
  rw [if_pos ⟨hk, hf⟩]

/-- Witness for C4 (amended) at the all-failing bus. -/
theorem lm83_c4_bus_failure_masked_witness :
    (lm83_detect busErr5 (-2) d0g 0 0).result = DetectResult.notPresent :=
  lm83_c4_bus_failure_masked busErr5 (-2) d0g 0 0 (by decide) (by decide)
    (by decide)

/-- Counterexample for C5: on a bus whose writes all fail with errno -5, a
forced-kind attach still succeeds (the threshold-register write failures are
ignored, refuting "a write failure aborts the attach"), and the attached
client's cached local threshold is the indeterminate prior byte 7, not the
default 127 (refuting "all four cached thresholds are initialized to 127"). -/
theorem lm83_c5_cex :
    busWFail.writeReg LM83_REG_W_LOCAL_HIGH 127 = -5 ∧
    (lm83_detect busWFail 1 d0g 0 0).result =
      DetectResult.attached { d0g with valid := false } 0 ∧
    ({ d0g with valid := false } : lm83_data).local_high = 7 ∧
    (7 : Nat) ≠ 127 := by
  decide

/-- C5 (amended): every successful attach leaves the cached threshold fields
at their prior (indeterminate) contents — only `valid` is cleared — while the
default 127 is written through to the four threshold registers; the results
of those writes are ignored, so a write failure does not abort the attach. -/
theorem lm83_c5_attach_thresholds (bus : Bus) (kind : Int) (init : lm83_data)
    (attachRes registerRes : Int) (d : lm83_data) (sid : Int)
    (h : (lm83_detect bus kind init attachRes registerRes).result =
          DetectResult.attached d sid) :
    d = { init with valid := false } ∧
    d.local_high = init.local_high ∧
    d.remote1_high = init.remote1_high ∧
    d.remote2_high = init.remote2_high ∧
    d.remote3_high = init.remote3_high ∧
    toU8 (TEMP_TO_REG LM83_INIT_HIGH) = 127 ∧
    lm83_init_client =
      [Ev.writeReg LM83_REG_W_LOCAL_HIGH 127,
       Ev.writeReg LM83_REG_W_REMOTE1_HIGH 127,
       Ev.writeReg LM83_REG_W_REMOTE2_HIGH 127,
       Ev.writeReg LM83_REG_W_REMOTE3_HIGH 127] ∧
    ∃ pre, (lm83_detect bus kind init attachRes registerRes).trace =
      pre ++ lm83_init_client := by
  unfold lm83_detect at h
  split_ifs at h with h0 h1 h2 h3 h4 <;> simp at h
  obtain ⟨hd, hs⟩ := h
  subst hd
  have hrun : lm83_detect bus kind init attachRes registerRes =
      ⟨DetectResult.attached { init with valid := false } registerRes,
       (lm83_detect_probe bus kind ++ [Ev.attachClient, Ev.registerEntry]) ++
         lm83_init_client⟩ := by
    unfold lm83_detect
    rw [if_neg h0, if_neg h1, if_neg h2, if_neg h3, if_neg h4]
  rw [hrun]
  exact ⟨rfl, rfl, rfl, rfl, rfl, by decide, by decide, ⟨_, rfl⟩⟩

/-- Witness for C5 (amended): the forced-kind attach on the write-failing bus. -/
theorem lm83_c5_attach_thresholds_witness :
    ∃ pre, (lm83_detect busWFail 1 d0g 0 0).trace = pre ++ lm83_init_client :=
  (lm83_c5_attach_thresholds busWFail 1 d0g 0 0
    { d0g with valid := false } 0 (by decide)).2.2.2.2.2.2.2

/-- C6: whenever registering the proc directory entries fails after the
client was attached to the i2c layer, the rollback detaches the client from
the i2c layer and only then frees its state (reverse order of acquisition),
and detect returns the registration error. -/
theorem lm83_c6_rollback (bus : Bus) (kind : Int) (init : lm83_data)
    (attachRes registerRes : Int) (e : Int)
    (h : (lm83_detect bus kind init attachRes registerRes).result =
          DetectResult.registerFailed e) :
    e = registerRes ∧ registerRes < 0 ∧ attachRes = 0 ∧
    (lm83_detect bus kind init attachRes registerRes).result.ret = registerRes ∧
    ∃ pre, (lm83_detect bus kind init attachRes registerRes).trace =
      pre ++ [Ev.attachClient, Ev.registerEntry, Ev.detachClient, Ev.kfree] := by
  unfold lm83_detect at h
  split_ifs at h with h0 h1 h2 h3 h4 <;> simp at h
  subst h
  have hrun : lm83_detect bus kind init attachRes registerRes =
      ⟨DetectResult.registerFailed registerRes,
       lm83_detect_probe bus kind ++
         [Ev.attachClient, Ev.registerEntry, Ev.detachClient, Ev.kfree]⟩ := by
    unfold lm83_detect
    rw [if_neg h0, if_neg h1, if_neg h2, if_neg h3, if_pos h4]
  rw [hrun]
  exact ⟨rfl, h4, by omega, rfl, ⟨_, rfl⟩⟩

/-- Witness for C6: a forced-kind detect whose proc registration fails (-7)
after a successful i2c attach. -/
theorem lm83_c6_rollback_witness :
    ∃ pre, (lm83_detect busWFail 1 d0g 0 (-7)).trace =
      pre ++ [Ev.attachClient, Ev.registerEntry, Ev.detachClient, Ev.kfree] :=
  (lm83_c6_rollback busWFail 1 d0g 0 (-7) (-7) (by decide)).2.2.2.2

/-- C7: detach first deregisters the proc entries and then detaches from the
i2c layer, in that order; if the i2c detach fails, detach returns that error
and does not free the client state; the state is freed exactly when the i2c
detach succeeds, and then detach returns 0. -/
theorem lm83_c7_detach_order (detachRes : Int) :
    (lm83_detach_client detachRes).2.2.take 2 =
      [Ev.deregisterEntry, Ev.detachClient] ∧
    ((lm83_detach_client detachRes).2.1 = true ↔ detachRes = 0) ∧
    (detachRes ≠ 0 →
      (lm83_detach_client detachRes).1 = detachRes ∧
      (lm83_detach_client detachRes).2.1 = false ∧
      (lm83_detach_client detachRes).2.2 =
        [Ev.deregisterEntry, Ev.detachClient]) ∧
    (detachRes = 0 →
      (lm83_detach_client detachRes).1 = 0 ∧
      (lm83_detach_client detachRes).2.1 = true ∧
      (lm83_detach_client detachRes).2.2 =
        [Ev.deregisterEntry, Ev.detachClient, Ev.kfree]) := by
  unfold lm83_detach_client
  by_cases hd : detachRes = 0 <;> simp [hd]

/-- Witness for C7: detach with a failing (-5) and a succeeding i2c detach. -/
theorem lm83_c7_detach_order_witness :
    ((lm83_detach_client (-5)).1 = -5 ∧ (lm83_detach_client (-5)).2.1 = false) ∧
    (lm83_detach_client 0).2.1 = true :=
  ⟨⟨((lm83_c7_detach_order (-5)).2.2.1 (by decide)).1,
    ((lm83_c7_detach_order (-5)).2.2.1 (by decide)).2.1⟩,
   ((lm83_c7_detach_order 0).2.2.2 rfl).2.1⟩

/-- C9: For every integer x in [-128, 127], decode(encode(x)) == x, and the
codec `TEMP_FROM_REG` / `TEMP_TO_REG` (with the u8 store truncation) is a
total, deterministic bijection between the 256 byte values and [-128, 127]. -/
theorem lm83_c9_codec :
    (∀ x : Int, -128 ≤ x → x ≤ 127 → TEMP_FROM_REG (toU8 (TEMP_TO_REG x)) = x) ∧
    (∀ b : Nat, b < 256 →
      (-128 ≤ TEMP_FROM_REG b ∧ TEMP_FROM_REG b ≤ 127) ∧
      toU8 (TEMP_TO_REG (TEMP_FROM_REG b)) = b) ∧
    (∀ b1 b2 : Nat, b1 < 256 → b2 < 256 →
      TEMP_FROM_REG b1 = TEMP_FROM_REG b2 → b1 = b2) := by
  refine ⟨temp_roundtrip, fun b hb => ⟨temp_decode_bounds b hb, temp_encode_decode b hb⟩, ?_⟩
  intro b1 b2 h1 h2 heq
  unfold TEMP_FROM_REG at heq
  split at heq <;> split at heq <;> omega

/-- C8: for every channel and in-range value v, the WRITE handler stores the
encoded byte into the cached threshold field and emits the register write of
that byte; the produced state does not depend on the bus (so the cache
reflects v even if the bus write fails — the write result is discarded and
nothing is rolled back); and a READ immediately after — on any bus and at any
time, whether or not it refreshes — reports threshold v. Concretely,
writing -10 on remote2 emits byte 246 to register 0x0D and a subsequent read
reports -10. -/
theorem lm83_c8_write_threshold :
    (∀ (c : Channel) (bus : Bus) (now : Nat) (d : lm83_data) (v : Int),
       -128 ≤ v → v ≤ 127 →
       threshold_field c (lm83_channel_fn c bus now (ProcOp.write [v]) d).data =
         toU8 (TEMP_TO_REG v) ∧
       (lm83_channel_fn c bus now (ProcOp.write [v]) d).trace =
         [Ev.writeReg (threshold_wreg c) (toU8 (TEMP_TO_REG v))] ∧
       (∀ bus2 : Bus,
          lm83_channel_fn c bus now (ProcOp.write [v]) d =
            lm83_channel_fn c bus2 now (ProcOp.write [v]) d) ∧
       (∀ (bus2 : Bus) (now2 : Nat),
          (lm83_channel_fn c bus2 now2 ProcOp.read
              ((lm83_channel_fn c bus now (ProcOp.write [v]) d).data)).results[1]? =
            some v)) ∧
    (toU8 (TEMP_TO_REG (-10)) = 246 ∧
     (lm83_remote2_temp busErr5 0 (ProcOp.write [-10]) d0).trace =
       [Ev.writeReg LM83_REG_W_REMOTE2_HIGH 246] ∧
     (lm83_remote2_temp busErr5 5 ProcOp.read
         ((lm83_remote2_temp busErr5 0 (ProcOp.write [-10]) d0).data)).results[1]? =
       some (-10)) := by
  constructor
  · intro c bus now d v h1 h2
    have hrt := temp_roundtrip v h1 h2
    cases c <;>
      refine ⟨rfl, rfl, fun bus2 => rfl, fun bus2 now2 => ?_⟩ <;>
      · simp only [lm83_channel_fn, lm83_local_temp, lm83_remote1_temp,
          lm83_remote2_temp, lm83_remote3_temp, lm83_update_client]
        split <;> simp [hrt]
  · exact ⟨by decide, by decide, by decide⟩

/-- Witness for C8: the write-threshold theorem applied at remote2, -10. -/
theorem lm83_c8_write_threshold_witness :
    threshold_field Channel.temp3
      (lm83_channel_fn Channel.temp3 busErr5 0 (ProcOp.write [-10]) d0).data =
      toU8 (TEMP_TO_REG (-10)) :=
  (lm83_c8_write_threshold.1 Channel.temp3 busErr5 0 d0 (-10)
    (by decide) (by decide)).1

/-- Witness for C9: the codec theorem applied at x = -10 and bytes 246, 200. -/
theorem lm83_c9_codec_witness :
    TEMP_FROM_REG (toU8 (TEMP_TO_REG (-10))) = -10 ∧
    toU8 (TEMP_TO_REG (TEMP_FROM_REG 246)) = 246 :=
  ⟨lm83_c9_codec.1 (-10) (by decide) (by decide),
   (lm83_c9_codec.2.1 246 (by decide)).2⟩
